import Mathlib

/-!
Shallow embedding of the GeometricConstraintSolver repository (Python):
the geometric object model (`source/geometry/cuboid.py`), the constraint
propositions (`source/constraints/*.py`), and the optimization harness
(`source/problem.py`, plus the post-solve rotation recast performed by
`scripts/DataGeneration.py`).  External libraries (numpy, scipy, shapely)
are modelled mathematically where a badness formula calls into them; each
such definition carries a doc comment naming the library behaviour it
models.  The base geometric-object class (`source/geometry/geometric_object.py`)
is absent from the sources and is modelled from the spec where needed.
-/

namespace GCS

/-- Python exception kinds raised by the embedded code paths. -/
inductive PyErr where
  | valueError
  | typeError
  | assertionError
  | notImplementedError
deriving DecidableEq, Repr

/-- Python value returned by a constraint class's `arity` member, as seen by the
base-class check in `source/constraints/constraint.py`: an `int`, `None`, or a
2-tuple of ints (as returned by `TranslationalAlignment.arity`). -/
inductive PyVal where
  | none
  | int (n : ℤ)
  | tuple2 (a b : ℤ)
deriving DecidableEq, Repr

/-- Python `==` between the `int` `len(arguments)` and the arity value: an int
equals an int with the same value; an int never equals `None` or a tuple. -/
def pyLenEq (n : ℕ) : PyVal → Bool
  | PyVal.int m => (n : ℤ) = m
  | _ => false

/-- Embeds `ConstraintProposition.__init__` (source/constraints/constraint.py,
lines 22-38).  `arityResult` is the outcome of evaluating `self.arity()`: for
`Symmetry`, whose `arity` is a `@property` returning `None`, the call
`self.arity()` itself raises `TypeError` (`None` is not callable), so the
argument is `.error .typeError`.  Otherwise the code raises `ValueError` when
`self.arity() is not None and len(arguments) != self.arity()`. -/
def baseInit (arityResult : Except PyErr PyVal) (nargs : ℕ) : Except PyErr Unit :=
  match arityResult with
  | Except.error e => Except.error e
  | Except.ok a =>
      if a ≠ PyVal.none ∧ pyLenEq nargs a = false then Except.error PyErr.valueError
      else Except.ok ()

/-- Embeds construction of `Proximity` (arity 2, `source/constraints/proximity.py`). -/
def proximityInit {α : Type} (arguments : List α) : Except PyErr Unit :=
  baseInit (Except.ok (PyVal.int 2)) arguments.length

/-- Embeds construction of `Parallelism` (arity 2, `source/constraints/parallelism.py`). -/
def parallelismInit {α : Type} (arguments : List α) : Except PyErr Unit :=
  baseInit (Except.ok (PyVal.int 2)) arguments.length

/-- Embeds construction of `Perpendicularity` (arity 2, `source/constraints/perpendicularity.py`). -/
def perpendicularityInit {α : Type} (arguments : List α) : Except PyErr Unit :=
  baseInit (Except.ok (PyVal.int 2)) arguments.length

/-- Embeds construction of `Cover` (arity 2, `source/constraints/cover.py`). -/
def coverInit {α : Type} (arguments : List α) : Except PyErr Unit :=
  baseInit (Except.ok (PyVal.int 2)) arguments.length

/-- Embeds construction of `Clearance` (arity 3, `source/constraints/clearance.py`). -/
def clearanceInit {α : Type} (arguments : List α) : Except PyErr Unit :=
  baseInit (Except.ok (PyVal.int 3)) arguments.length

/-- Embeds construction of `NoOverlap` (`source/constraints/overlap.py`): its
static `arity()` returns `-1`, which the base-class check compares against
`len(arguments)`. -/
def noOverlapInit {α : Type} (arguments : List α) : Except PyErr Unit :=
  baseInit (Except.ok (PyVal.int (-1))) arguments.length

/-- Embeds construction of `Symmetry` (`source/constraints/symmetry.py`): its
`arity` is a `@property` returning `None`, so the base class's `self.arity()`
raises `TypeError` before any length comparison. -/
def symmetryInit {α : Type} (arguments : List α) (clamp : Bool) : Except PyErr Unit :=
  match baseInit (Except.error PyErr.typeError) arguments.length with
  | Except.error e => Except.error e
  | Except.ok _ => Except.ok ()

/-- Embeds construction of `TranslationalAlignment`
(`source/constraints/alignment.py`): its static `arity()` returns the tuple
`(2, -1)`; after the base-class check, `__init__` validates `dimension` and
`location` against their string domains and raises `ValueError` otherwise. -/
def alignmentInit {α : Type} (arguments : List α) (dimension location : String) :
    Except PyErr Unit :=
  match baseInit (Except.ok (PyVal.tuple2 2 (-1))) arguments.length with
  | Except.error e => Except.error e
  | Except.ok _ =>
      if dimension ∉ ["x", "y", "z"] then Except.error PyErr.valueError
      else if location ∉ ["bounding_min", "bounding_max", "center"] then
        Except.error PyErr.valueError
      else Except.ok ()

/-- Embeds construction of `Direction` (`source/constraints/direction.py`):
after the base-class arity-2 check, an `assert` restricts `direction` to the
six named directions and raises `AssertionError` otherwise. -/
def directionInit {α : Type} (arguments : List α) (direction : String) :
    Except PyErr Unit :=
  match baseInit (Except.ok (PyVal.int 2)) arguments.length with
  | Except.error e => Except.error e
  | Except.ok _ =>
      if direction ∉ ["left", "right", "up", "down", "front", "back"] then
        Except.error PyErr.assertionError
      else Except.ok ()

noncomputable section

/-- A 3-component real vector (used for `loc`, `rot`, `scale`). -/
structure Vec3 where
  x : ℝ
  y : ℝ
  z : ℝ

instance : Inhabited Vec3 := ⟨⟨0, 0, 0⟩⟩

/-- A 3x3 real matrix given by its entries, row by row. -/
structure Mat3 where
  m00 : ℝ
  m01 : ℝ
  m02 : ℝ
  m10 : ℝ
  m11 : ℝ
  m12 : ℝ
  m20 : ℝ
  m21 : ℝ
  m22 : ℝ

/-- Modelled from scipy (external library): the rotation matrix produced by
`R.from_euler(angles=rot, seq="xyz", degrees=True).as_matrix()`, i.e. extrinsic
x-y-z Euler rotations in degrees, whose column-convention matrix is
`Rz(γ) · Ry(β) · Rx(α)` with `α,β,γ` the three angles in radians. -/
def scipyEulerXYZ (rot : Vec3) : Mat3 :=
  let α := rot.x / 180 * Real.pi
  let β := rot.y / 180 * Real.pi
  let γ := rot.z / 180 * Real.pi
  let ca := Real.cos α
  let sa := Real.sin α
  let cb := Real.cos β
  let sb := Real.sin β
  let cg := Real.cos γ
  let sg := Real.sin γ
  { m00 := cg * cb, m01 := cg * sb * sa - sg * ca, m02 := cg * sb * ca + sg * sa,
    m10 := sg * cb, m11 := sg * sb * sa + cg * ca, m12 := sg * sb * ca - cg * sa,
    m20 := -sb,     m21 := cb * sa,               m22 := cb * ca }

/-- Row-vector times matrix, as in numpy's `corners @ rotation_matrix`
(`source/geometry/cuboid.py`, line 128). -/
def rowMul (v : Vec3) (m : Mat3) : Vec3 :=
  ⟨v.x * m.m00 + v.y * m.m10 + v.z * m.m20,
   v.x * m.m01 + v.y * m.m11 + v.z * m.m21,
   v.x * m.m02 + v.y * m.m12 + v.z * m.m22⟩

/-- Componentwise vector addition. -/
def vadd (a b : Vec3) : Vec3 := ⟨a.x + b.x, a.y + b.y, a.z + b.z⟩

/-- Componentwise vector product, as in numpy's `corners * self.scale`. -/
def vmul (a b : Vec3) : Vec3 := ⟨a.x * b.x, a.y * b.y, a.z * b.z⟩

/-- Modelled from the spec: `source/geometry/geometric_object.py` (the
`GeometricObject` base class holding the stored state) is absent from the
sources; per spec section 3 a geometric object stores `loc` (world-space
center), `rot` (degrees), `scale` (full extents), and a `name` string.
`Cuboid` (`source/geometry/cuboid.py`) adds no further stored state. -/
structure Cuboid where
  loc : Vec3
  rot : Vec3
  scale : Vec3
  name : String

instance : Inhabited Cuboid := ⟨⟨default, default, default, ""⟩⟩

/-- The eight base corners `itertools.product([-0.5,0.5],[-0.5,0.5],[-0.5,0.5])`
in their fixed order (`source/geometry/cuboid.py`, line 120). -/
def baseCorners : List Vec3 :=
  [⟨-0.5, -0.5, -0.5⟩, ⟨-0.5, -0.5, 0.5⟩, ⟨-0.5, 0.5, -0.5⟩, ⟨-0.5, 0.5, 0.5⟩,
   ⟨0.5, -0.5, -0.5⟩, ⟨0.5, -0.5, 0.5⟩, ⟨0.5, 0.5, -0.5⟩, ⟨0.5, 0.5, 0.5⟩]

/-- Embeds `Cuboid.get_corners` (`source/geometry/cuboid.py`, lines 108-130):
scale the base corners componentwise, right-multiply each (as a row vector) by
the scipy Euler matrix, then translate by `loc`. -/
def Cuboid.get_corners (c : Cuboid) : List Vec3 :=
  baseCorners.map (fun b => vadd (rowMul (vmul b c.scale) (scipyEulerXYZ c.rot)) c.loc)

/-- Minimum of a list of reals; `0` on the empty list (the empty case is never
reached by the embedded code, which takes extrema of the 8 corners). -/
def minList : List ℝ → ℝ
  | [] => 0
  | a :: r => r.foldl min a

/-- Maximum of a list of reals; `0` on the empty list. -/
def maxList : List ℝ → ℝ
  | [] => 0
  | a :: r => r.foldl max a

/-- Embeds `Cuboid.get_bounding_intervals` (`source/geometry/cuboid.py`,
lines 53-70): per-axis `[min, max]` over the eight corners. -/
def Cuboid.get_bounding_intervals (c : Cuboid) : (ℝ × ℝ) × (ℝ × ℝ) × (ℝ × ℝ) :=
  let cs := c.get_corners
  ((minList (cs.map Vec3.x), maxList (cs.map Vec3.x)),
   (minList (cs.map Vec3.y), maxList (cs.map Vec3.y)),
   (minList (cs.map Vec3.z), maxList (cs.map Vec3.z)))

/-- The planar rotated rectangle of `source/geometry/cuboid.py` (`RotatedRect`):
center, width, height, and an angle which `Cuboid.to_2d_rect` always supplies
in degrees (`use_radians=False`). -/
structure RotatedRect where
  cx : ℝ
  cy : ℝ
  w : ℝ
  h : ℝ
  angle : ℝ

/-- Embeds `Cuboid.to_2d_rect` (`source/geometry/cuboid.py`, lines 132-138):
planar rectangle at `loc`'s x,y with `scale`'s first two components and the
z-rotation in degrees. -/
def Cuboid.to_2d_rect (c : Cuboid) : RotatedRect :=
  ⟨c.loc.x, c.loc.y, c.scale.x, c.scale.y, c.rot.z⟩

/-- Modelled from shapely (external library): the closed region covered by the
rotated rectangle, as produced by `RotatedRect.get_contour` (`box` around the
origin, rotated by `angle` degrees, translated to the center). -/
def RotatedRect.covered (r : RotatedRect) : Set (ℝ × ℝ) :=
  {p | ∃ u v : ℝ, |u| ≤ r.w / 2 ∧ |v| ≤ r.h / 2 ∧
    p.1 = r.cx + u * Real.cos (r.angle * Real.pi / 180) - v * Real.sin (r.angle * Real.pi / 180) ∧
    p.2 = r.cy + u * Real.sin (r.angle * Real.pi / 180) + v * Real.cos (r.angle * Real.pi / 180)}

/-- Euclidean distance between two points of the plane. -/
def eDist2 (p q : ℝ × ℝ) : ℝ :=
  Real.sqrt ((p.1 - q.1) ^ 2 + (p.2 - q.2) ^ 2)

/-- Modelled from shapely (external library): `shapely.distance` between two
polygons is the minimum Euclidean distance between their regions (`0` when they
intersect), embedded as the infimum over point pairs. -/
def RotatedRect.dist2d (r s : RotatedRect) : ℝ :=
  sInf {d | ∃ p ∈ r.covered, ∃ q ∈ s.covered, d = eDist2 p q}

/-- Modelled from shapely (external library): the area `w * h` of the rotated
rectangle returned by `RotatedRect.area`. -/
def RotatedRect.rectArea (r : RotatedRect) : ℝ := r.w * r.h

/-- Modelled from shapely (external library), restricted to the axis-aligned
case used by the claims (both angles `0`): the intersection area of two
axis-aligned rectangles is the product of their per-axis interval overlaps. -/
def interAreaAA (r s : RotatedRect) : ℝ :=
  max 0 (min (r.cx + r.w / 2) (s.cx + s.w / 2) - max (r.cx - r.w / 2) (s.cx - s.w / 2)) *
  max 0 (min (r.cy + r.h / 2) (s.cy + s.h / 2) - max (r.cy - r.h / 2) (s.cy - s.h / 2))

/-- Embeds `Parallelism.badness` (`source/constraints/parallelism.py`, lines
18-22): `1 - cos(|θ0 - θ1|)` on the two z-rotations converted to radians. -/
def parallelismBadness (o0 o1 : Cuboid) : ℝ :=
  let θ0 := o0.rot.z / 180 * Real.pi
  let θ1 := o1.rot.z / 180 * Real.pi
  1 - Real.cos |θ0 - θ1|

/-- Embeds `Perpendicularity.badness` (`source/constraints/perpendicularity.py`,
lines 18-25): `(cos(|θ0 - θ1|) + 1) / 2` on the two z-rotations in radians. -/
def perpendicularityBadness (o0 o1 : Cuboid) : ℝ :=
  let θ0 := o0.rot.z / 180 * Real.pi
  let θ1 := o1.rot.z / 180 * Real.pi
  (Real.cos |θ0 - θ1| + 1) / 2

/-- Embeds `Proximity.badness` (`source/constraints/proximity.py`, lines
11-15): the planar boundary distance of the two projected rectangles, clipped
by `min(1, dist)`. -/
def proximityBadness (o1 o2 : Cuboid) : ℝ :=
  min 1 (o1.to_2d_rect.dist2d o2.to_2d_rect)

/-- Embeds `Cover.badness` (`source/constraints/cover.py`, lines 19-27):
one minus the ratio of the projected intersection area to the covered
object's (`arguments[1]`) projected area.  The intersection-area model is
valid for the axis-aligned rectangles the claims use. -/
def coverBadness (o0 o1 : Cuboid) : ℝ :=
  1 - interAreaAA o0.to_2d_rect o1.to_2d_rect / o1.to_2d_rect.rectArea

/-- Embeds `scaled_sigmoid` (`source/utils/scaled_sigmoid.py`):
`((1 / (1 + exp(-x))) - 0.5) * 2`. -/
def scaled_sigmoid (x : ℝ) : ℝ :=
  (1 / (1 + Real.exp (-x)) - 0.5) * 2

/-- Mean of a list of reals (numpy `mean`); `0/0 = 0` on the empty list. -/
def listMean (l : List ℝ) : ℝ := l.sum / l.length

/-- Modelled from numpy (external library): `np.std`, the population standard
deviation — the square root of the mean squared deviation from the mean. -/
def npStd (l : List ℝ) : ℝ :=
  Real.sqrt (listMean (l.map (fun v => (v - listMean l) ^ 2)))

/-- Embeds the `dim_idx` selection of `TranslationalAlignment.badness`
(`source/constraints/alignment.py`): `dim_idx` starts at `0` and is overwritten
for `"x"`, `"y"`, `"z"`. -/
def dimIdx (dimension : String) : ℕ :=
  if dimension = "x" then 0 else if dimension = "y" then 1
  else if dimension = "z" then 2 else 0

/-- Index into the triple of bounding intervals, as `get_bounding_intervals()[dim_idx]`. -/
def pickInterval (b : (ℝ × ℝ) × (ℝ × ℝ) × (ℝ × ℝ)) : ℕ → ℝ × ℝ
  | 0 => b.1
  | 1 => b.2.1
  | _ => b.2.2

/-- Index into `loc`, as `argument.loc[dim_idx]`. -/
def pickCoord (v : Vec3) : ℕ → ℝ
  | 0 => v.x
  | 1 => v.y
  | _ => v.z

/-- Embeds the `values_to_compare` loop of `TranslationalAlignment.badness`
(`source/constraints/alignment.py`, lines 55-67): per argument, the selected
axis of the bounding-interval minimum, the bounding-interval maximum, or the
center (`loc`); a location matching none of the three appends nothing. -/
def alignValues (args : List Cuboid) (dimension location : String) : List ℝ :=
  let d := dimIdx dimension
  if location = "bounding_min" then
    args.map (fun a => (pickInterval a.get_bounding_intervals d).1)
  else if location = "bounding_max" then
    args.map (fun a => (pickInterval a.get_bounding_intervals d).2)
  else if location = "center" then
    args.map (fun a => pickCoord a.loc d)
  else []

/-- Embeds `TranslationalAlignment.badness` (`source/constraints/alignment.py`,
lines 45-68): `scaled_sigmoid(np.std(values_to_compare))`. -/
def alignmentBadness (args : List Cuboid) (dimension location : String) : ℝ :=
  scaled_sigmoid (npStd (alignValues args dimension location))

/-- Euclidean distance between two points of space (numpy row norm of the
difference, and scipy's `distance_matrix` entries). -/
def eDist3 (p q : Vec3) : ℝ :=
  Real.sqrt ((p.x - q.x) ^ 2 + (p.y - q.y) ^ 2 + (p.z - q.z) ^ 2)

/-- Componentwise mean of a list of points (`np.mean(..., axis=0)`). -/
def meanVec3 (l : List Vec3) : Vec3 :=
  ⟨listMean (l.map Vec3.x), listMean (l.map Vec3.y), listMean (l.map Vec3.z)⟩

/-- The `{"x": 0, "y": 1, "z": 2}` lookup of `Symmetry._badness_along_axis`;
only `"x"` and `"y"` are ever passed. -/
def axisDim (axis : String) : ℕ :=
  if axis = "x" then 0 else if axis = "y" then 1 else 2

/-- Replace one coordinate of a point, as the numpy column assignment
`mirrored_objects_loc[:, axis_dim] = 2 * median - all_objects_loc[:, axis_dim]`. -/
def setCoord (d : ℕ) (r : ℝ) (v : Vec3) : Vec3 :=
  match d with
  | 0 => ⟨r, v.y, v.z⟩
  | 1 => ⟨v.x, r, v.z⟩
  | _ => ⟨v.x, v.y, r⟩

/-- Embeds `Symmetry._badness_along_axis` (`source/constraints/symmetry.py`,
lines 38-62): mirror every location about the centroid's selected coordinate,
take each mirrored point's nearest-neighbor distance to the actual point set,
normalize by that mirrored point's distance to the centroid plus `1e-7`, and
average.  (The method's runtime `assert 0 ≤ badness ≤ 1` is a check, not part
of the returned value.) -/
def symBadnessAxis (locs : List Vec3) (axis : String) : ℝ :=
  let d := axisDim axis
  let centroid := meanVec3 locs
  let m := pickCoord centroid d
  let mirrored := locs.map (fun p => setCoord d (2 * m - pickCoord p d) p)
  let ratios := mirrored.map (fun q =>
    minList (locs.map (fun p => eDist3 q p)) / (eDist3 q centroid + 1e-7))
  listMean ratios

/-- Embeds `Symmetry.badness` (`source/constraints/symmetry.py`, lines 29-36):
the minimum of the x-axis and y-axis mirror badness over the arguments'
locations, clamped to `1` only when `clamp` is set (default `False`). -/
def symmetryBadness (args : List Cuboid) (clamp : Bool) : ℝ :=
  let xb := symBadnessAxis (args.map Cuboid.loc) "x"
  let yb := symBadnessAxis (args.map Cuboid.loc) "y"
  let b := min xb yb
  if clamp then min b 1 else b

/-- Embeds `Direction.badness` (`source/constraints/direction.py`, lines
21-39): normalize the planar displacement from the first to the second object
with a `1e-8` guard, dot it with the named reference direction, and map to
`[0,1]`; `"up"` and `"down"` raise `NotImplementedError`. -/
def directionBadness (direction : String) (o1 o2 : Cuboid) : Except PyErr ℝ :=
  let rx := o2.loc.x - o1.loc.x
  let ry := o2.loc.y - o1.loc.y
  let n := 1e-8 + Real.sqrt (rx ^ 2 + ry ^ 2)
  if direction = "left" then Except.ok ((rx / n * 1 + ry / n * 0 + 1) / 2)
  else if direction = "right" then Except.ok ((rx / n * (-1) + ry / n * 0 + 1) / 2)
  else if direction = "up" then Except.error PyErr.notImplementedError
  else if direction = "down" then Except.error PyErr.notImplementedError
  else if direction = "front" then Except.ok ((rx / n * 0 + ry / n * 1 + 1) / 2)
  else if direction = "back" then Except.ok ((rx / n * 0 + ry / n * (-1) + 1) / 2)
  else Except.error PyErr.notImplementedError

/-- Modelled from the spec: `get_optimizable_attr` of the absent
`source/geometry/geometric_object.py` packs, per spec section 4.1, a
fixed-length ordered list of the decision scalars — `loc`'s 3 components then
`rot`'s 3 components. -/
def Cuboid.get_optimizable_attr (c : Cuboid) : List ℝ :=
  [c.loc.x, c.loc.y, c.loc.z, c.rot.x, c.rot.y, c.rot.z]

/-- Modelled from the spec: `set_optimizable_attr` of the absent
`source/geometry/geometric_object.py` writes the same six scalars back in the
same order, leaving `scale` and `name` untouched. -/
def Cuboid.set_optimizable_attr (c : Cuboid) (v : List ℝ) : Cuboid :=
  { c with
    loc := ⟨v.getD 0 0, v.getD 1 0, v.getD 2 0⟩,
    rot := ⟨v.getD 3 0, v.getD 4 0, v.getD 5 0⟩ }

/-- Modelled from the spec: `get_optimizable_attr_form` of the absent
`source/geometry/geometric_object.py` names each decision scalar as
`attribute_dimension`; `Problem.solve` splits each name at its underscore
into the attribute and the dimension, so the entries are embedded directly
as the resulting (attribute, dimension) pairs. -/
def optimizableAttrForm : List (String × String) :=
  [("loc", "x"), ("loc", "y"), ("loc", "z"), ("rot", "x"), ("rot", "y"), ("rot", "z")]

/-- Embeds the `Problem` state (`source/problem.py`, lines 21-31): a plain
list of optimizable objects, parallel lists of constraint propositions and
weights, and the scene bounds.  `C` stands for the constraint-proposition
objects, which these claims treat opaquely. -/
structure Problem (C : Type) where
  optimizable_objects : List Cuboid
  constraint_propositions : List C
  constraint_weights : List ℝ
  scene_xmin : ℝ
  scene_xmax : ℝ
  scene_ymin : ℝ
  scene_ymax : ℝ
  scene_zmin : ℝ
  scene_zmax : ℝ

/-- Embeds `Problem.add_optimizable_object` (`source/problem.py`, lines 33-40):
an unconditional `append` to the list — no identifier and no duplicate check. -/
def Problem.add_optimizable_object {C : Type} (p : Problem C) (o : Cuboid) : Problem C :=
  { p with optimizable_objects := p.optimizable_objects ++ [o] }

/-- Embeds `Problem.add_constraint_proposition` (`source/problem.py`, lines
42-51): append the proposition and its weight. -/
def Problem.add_constraint_proposition {C : Type} (p : Problem C) (c : C) (w : ℝ) :
    Problem C :=
  { p with
    constraint_propositions := p.constraint_propositions ++ [c],
    constraint_weights := p.constraint_weights ++ [w] }

/-- Embeds `Problem._flatten_optimizable_parameters` (`source/problem.py`,
lines 53-58): concatenate every registry object's optimizable vector in
registry order. -/
def Problem.flattenParams {C : Type} (p : Problem C) : List ℝ :=
  (p.optimizable_objects.map Cuboid.get_optimizable_attr).flatten

/-- The slicing loop of `Problem._recover_optimizable_parameters`: write
`flat[cur:cur+w]` to each object in order, advancing by `w`. -/
def recoverChunks (objs : List Cuboid) (w : ℕ) (flat : List ℝ) : List Cuboid :=
  match objs with
  | [] => []
  | o :: rest => o.set_optimizable_attr (flat.take w) :: recoverChunks rest w (flat.drop w)

/-- Embeds `Problem._recover_optimizable_parameters` (`source/problem.py`,
lines 60-67): the chunk width is the first registry object's vector length
(an empty registry raises `IndexError` in the source and is unreachable under
the solver's precondition). -/
def Problem.recoverParams {C : Type} (p : Problem C) (flat : List ℝ) : List Cuboid :=
  match p.optimizable_objects with
  | [] => []
  | o :: rest => recoverChunks (o :: rest) o.get_optimizable_attr.length flat

/-- Embeds the final step of `Problem.solve` (`source/problem.py`, line 119):
the vector returned by the external scipy minimizer is written back verbatim
via `_recover_optimizable_parameters(solution.x)`; `solve` performs no
further processing before returning. -/
def Problem.solveFinalObjects {C : Type} (p : Problem C) (solutionX : List ℝ) :
    List Cuboid :=
  p.recoverParams solutionX

/-- Embeds the per-scalar bound selection of `Problem.solve`
(`source/problem.py`, lines 90-106): `rot` components get `(None, None)`,
`loc` components get the scene bounds for their dimension. -/
def boundFor {C : Type} (p : Problem C) (attr1 dimension : String) : Option ℝ × Option ℝ :=
  if attr1 = "rot" then (none, none)
  else if attr1 = "loc" then
    if dimension = "x" then (some p.scene_xmin, some p.scene_xmax)
    else if dimension = "y" then (some p.scene_ymin, some p.scene_ymax)
    else if dimension = "z" then (some p.scene_zmin, some p.scene_zmax)
    else (none, none)
  else (none, none)

/-- Embeds the bounds list of `Problem.solve` (`source/problem.py`, lines
89-107): the per-scalar bounds of one object's attribute form, repeated once
per registry object (`bounds = bounds * len(...)`). -/
def Problem.solveBounds {C : Type} (p : Problem C) : List (Option ℝ × Option ℝ) :=
  (List.replicate p.optimizable_objects.length
    (optimizableAttrForm.map (fun ad => boundFor p ad.1 ad.2))).flatten

/-- Embeds the post-solve recast of `scripts/DataGeneration.py` (lines
177-179), applied by the dataset-generation caller after `Problem.solve`
returns: `modded = rot[2] % 360` (Python float modulo), then `modded` if
`modded <= 180`, else `modded - 360`. -/
def recastZ (r : ℝ) : ℝ :=
  let modded := r - 360 * (⌊r / 360⌋ : ℤ)
  if modded ≤ 180 then modded else modded - 360

/-- A unit cuboid at the origin with a chosen z-rotation, used as a concrete
test object. -/
def zRotCuboid (θ : ℝ) : Cuboid := ⟨⟨0, 0, 0⟩, ⟨0, 0, θ⟩, ⟨1, 1, 1⟩, ""⟩

/-- An axis-aligned cuboid with a chosen center and scale. -/
def boxAt (lx ly lz sx sy sz : ℝ) : Cuboid := ⟨⟨lx, ly, lz⟩, ⟨0, 0, 0⟩, ⟨sx, sy, sz⟩, ""⟩

/-- A one-object problem with concrete scene bounds, used to evaluate the
solver's write-back behaviour. -/
def oneObjectProblem : Problem Unit :=
  ⟨[default], [], [], -10, 10, -10, 10, 0, 5⟩

/-- The outer box of scale `(2,2,2)` at the origin used by the cover claim. -/
def outerBox : Cuboid := boxAt 0 0 0 2 2 2

/-- The spec's phrase "population standard deviation", written independently of
the numpy model for comparison: the square root of the average squared
deviation from the mean. -/
def popStdSpec (l : List ℝ) : ℝ :=
  Real.sqrt ((l.map (fun v => (v - l.sum / l.length) ^ 2)).sum / l.length)

end

theorem sum_eq_zero_iff_of_nonneg (l : List ℝ) (h : ∀ x ∈ l, 0 ≤ x) :
    l.sum = 0 ↔ ∀ x ∈ l, x = 0 := by
  induction l with
  | nil => simp
  | cons a t ih =>
    have ha : 0 ≤ a := h a (by simp)
    have ht : ∀ x ∈ t, 0 ≤ x := fun x hx => h x (by simp [hx])
    have hts : 0 ≤ t.sum := List.sum_nonneg ht
    simp only [List.sum_cons, List.mem_cons]
    constructor
    · intro hs
      have ha0 : a = 0 := by linarith [hts, (by linarith : a + t.sum = 0)]
      have ht0 : t.sum = 0 := by linarith
      intro x hx
      rcases hx with rfl | hx
      · exact ha0
      · exact (ih ht).mp ht0 x hx
    · intro hall
      have ha0 : a = 0 := hall a (Or.inl rfl)
      have ht0 : t.sum = 0 := (ih ht).mpr fun x hx => hall x (Or.inr hx)
      rw [ha0, ht0, add_zero]

theorem sum_of_constant (l : List ℝ) (c : ℝ) (h : ∀ x ∈ l, x = c) :
    l.sum = (l.length : ℝ) * c := by
  induction l with
  | nil => simp
  | cons a t ih =>
    have ha : a = c := h a (by simp)
    have ht : t.sum = (t.length : ℝ) * c := ih fun x hx => h x (by simp [hx])
    simp only [List.sum_cons, List.length_cons, ha, ht]
    push_cast
    ring

theorem scaled_sigmoid_eq_zero_iff (x : ℝ) : scaled_sigmoid x = 0 ↔ x = 0 := by
  have he : 0 < Real.exp (-x) := Real.exp_pos _
  unfold scaled_sigmoid
  constructor
  · intro h
    have hne : 1 + Real.exp (-x) ≠ 0 := by positivity
    have h1 : 1 / (1 + Real.exp (-x)) = 0.5 := by linarith
    have h2 : Real.exp (-x) = 1 := by
      field_simp at h1
      linarith
    have h3 : -x = 0 := Real.exp_injective (by rw [h2, Real.exp_zero])
    linarith
  · rintro rfl
    norm_num [neg_zero, Real.exp_zero]

theorem sqrt_listMean_eq_zero_iff (m : List ℝ) (hm : ∀ x ∈ m, 0 ≤ x) (hne : m ≠ []) :
    Real.sqrt (listMean m) = 0 ↔ m.sum = 0 := by
  have hlen : (0 : ℝ) < (m.length : ℝ) := by
    have := List.length_pos.mpr hne
    exact_mod_cast this
  have hS : 0 ≤ m.sum := List.sum_nonneg hm
  unfold listMean
  rw [Real.sqrt_eq_zero']
  constructor
  · intro h
    rcases div_nonpos_iff.mp h with ⟨h1, h2⟩ | ⟨h1, h2⟩
    · linarith
    · linarith
  · intro h
    rw [h, zero_div]

theorem npStd_eq_zero_iff (l : List ℝ) : npStd l = 0 ↔ ∀ v ∈ l, ∀ w ∈ l, v = w := by
  cases l with
  | nil => simp [npStd, listMean]
  | cons a t =>
    have hmapnn : ∀ x ∈ (a :: t).map (fun v => (v - listMean (a :: t)) ^ 2), 0 ≤ x := by
      intro x hx
      obtain ⟨v, _, rfl⟩ := List.mem_map.mp hx
      positivity
    have hkey : npStd (a :: t) = 0 ↔
        ((a :: t).map (fun v => (v - listMean (a :: t)) ^ 2)).sum = 0 := by
      unfold npStd
      exact sqrt_listMean_eq_zero_iff _ hmapnn (by simp)
    rw [hkey, sum_eq_zero_iff_of_nonneg _ hmapnn]
    constructor
    · intro hall v hv w hw
      have hv0 := hall _ (List.mem_map.mpr ⟨v, hv, rfl⟩)
      have hw0 := hall _ (List.mem_map.mpr ⟨w, hw, rfl⟩)
      have hv1 : v - listMean (a :: t) = 0 := sq_eq_zero_iff.mp hv0
      have hw1 : w - listMean (a :: t) = 0 := sq_eq_zero_iff.mp hw0
      linarith
    · intro hall x hx
      obtain ⟨v, hv, rfl⟩ := List.mem_map.mp hx
      have hva : ∀ u ∈ (a :: t), u = a := fun u hu => hall u hu a (by simp)
      have hsum : (a :: t).sum = ((a :: t).length : ℝ) * a := sum_of_constant _ _ hva
      have hμa : listMean (a :: t) = a := by
        unfold listMean
        rw [hsum]
        have hne : ((a :: t).length : ℝ) ≠ 0 := by
          have : 0 < ((a :: t).length : ℝ) := by exact_mod_cast Nat.succ_pos t.length
          linarith
        field_simp
      rw [hva v hv, hμa]
      ring

theorem npStd_eq_popStdSpec (l : List ℝ) : npStd l = popStdSpec l := by
  unfold npStd popStdSpec listMean
  rw [List.length_map]

theorem foldl_min_le_init (t : List ℝ) : ∀ a : ℝ, t.foldl min a ≤ a := by
  induction t with
  | nil => intro a; simp
  | cons b r ih =>
    intro a
    simp only [List.foldl_cons]
    exact le_trans (ih (min a b)) (min_le_left a b)

theorem foldl_min_le_mem (t : List ℝ) : ∀ a x, x ∈ t → t.foldl min a ≤ x := by
  induction t with
  | nil =>
    intro a x hx
    simp at hx
  | cons b r ih =>
    intro a x hx
    rcases List.mem_cons.mp hx with rfl | hx
    · exact le_trans (foldl_min_le_init r (min a x)) (min_le_right a x)
    · exact ih (min a b) x hx

theorem le_foldl_min (t : List ℝ) : ∀ a c : ℝ, c ≤ a → (∀ x ∈ t, c ≤ x) →
    c ≤ t.foldl min a := by
  induction t with
  | nil =>
    intro a c h _
    simpa using h
  | cons b r ih =>
    intro a c hca hall
    simp only [List.foldl_cons]
    exact ih _ _ (le_min hca (hall b (by simp))) fun x hx => hall x (by simp [hx])

theorem minList_nonneg (l : List ℝ) (h : ∀ x ∈ l, 0 ≤ x) : 0 ≤ minList l := by
  cases l with
  | nil => simp [minList]
  | cons a t => exact le_foldl_min t a 0 (h a (by simp)) fun x hx => h x (by simp [hx])

theorem minList_le (l : List ℝ) (x : ℝ) (hx : x ∈ l) : minList l ≤ x := by
  cases l with
  | nil => simp at hx
  | cons a t =>
    rcases List.mem_cons.mp hx with rfl | hx
    · exact foldl_min_le_init t x
    · exact foldl_min_le_mem t a x hx

theorem minList_eq_zero (l : List ℝ) (h0 : (0 : ℝ) ∈ l) (hnn : ∀ x ∈ l, 0 ≤ x) :
    minList l = 0 :=
  le_antisymm (minList_le l 0 h0) (minList_nonneg l hnn)

theorem eDist3_self (p : Vec3) : eDist3 p p = 0 := by
  simp [eDist3]

theorem eDist3_nonneg (p q : Vec3) : 0 ≤ eDist3 p q := Real.sqrt_nonneg _

theorem listMean_nonneg (l : List ℝ) (h : ∀ x ∈ l, 0 ≤ x) : 0 ≤ listMean l :=
  div_nonneg (List.sum_nonneg h) (Nat.cast_nonneg _)

theorem listMean_zeros (l : List ℝ) (h : ∀ x ∈ l, x = 0) : listMean l = 0 := by
  unfold listMean
  rw [List.sum_eq_zero h, zero_div]

theorem symBadnessAxis_nonneg (locs : List Vec3) (axis : String) :
    0 ≤ symBadnessAxis locs axis := by
  simp only [symBadnessAxis]
  apply listMean_nonneg
  intro x hx
  obtain ⟨q, _, rfl⟩ := List.mem_map.mp hx
  apply div_nonneg
  · apply minList_nonneg
    intro y hy
    obtain ⟨p, _, rfl⟩ := List.mem_map.mp hy
    exact eDist3_nonneg _ _
  · have h1 := eDist3_nonneg q (meanVec3 locs)
    have h2 : (0 : ℝ) < 1e-7 := by norm_num
    linarith

theorem symBadnessAxis_y_zero (locs : List Vec3) (hy : ∀ p ∈ locs, p.y = 0) :
    symBadnessAxis locs "y" = 0 := by
  have hmean : listMean (locs.map Vec3.y) = 0 := by
    apply listMean_zeros
    intro x hx
    obtain ⟨p, hp, rfl⟩ := List.mem_map.mp hx
    exact hy p hp
  have hc : pickCoord (meanVec3 locs) (axisDim "y") = 0 := by
    show (meanVec3 locs).y = 0
    show listMean (locs.map Vec3.y) = 0
    exact hmean
  have hmirror : locs.map (fun p =>
      setCoord (axisDim "y") (2 * pickCoord (meanVec3 locs) (axisDim "y") -
        pickCoord p (axisDim "y")) p) = locs := by
    have hpt : ∀ p ∈ locs, setCoord (axisDim "y")
        (2 * pickCoord (meanVec3 locs) (axisDim "y") - pickCoord p (axisDim "y")) p = p := by
      intro p hp
      have hpy : p.y = 0 := hy p hp
      rw [hc]
      show Vec3.mk p.x (2 * 0 - p.y) p.z = p
      have h20 : (2 : ℝ) * 0 - p.y = p.y := by
        rw [hpy]
        ring
      rw [h20]
    rw [List.map_congr_left hpt, List.map_id']
  simp only [symBadnessAxis]
  rw [hmirror]
  apply listMean_zeros
  intro x hx
  obtain ⟨q, hq, rfl⟩ := List.mem_map.mp hx
  have hmz : minList (locs.map fun p => eDist3 q p) = 0 := by
    apply minList_eq_zero
    · exact List.mem_map.mpr ⟨q, hq, eDist3_self q⟩
    · intro y hy2
      obtain ⟨p, _, rfl⟩ := List.mem_map.mp hy2
      exact eDist3_nonneg _ _
  rw [hmz, zero_div]

theorem symmetryBadness_eq_zero_of_flat_y (args : List Cuboid)
    (hy : ∀ a ∈ args, a.loc.y = 0) : symmetryBadness args false = 0 := by
  have hy2 : ∀ p ∈ args.map Cuboid.loc, p.y = 0 := by
    intro p hp
    obtain ⟨a, ha, rfl⟩ := List.mem_map.mp hp
    exact hy a ha
  have h0 : symBadnessAxis (args.map Cuboid.loc) "y" = 0 := symBadnessAxis_y_zero _ hy2
  have hx : 0 ≤ symBadnessAxis (args.map Cuboid.loc) "x" := symBadnessAxis_nonneg _ _
  show min (symBadnessAxis (args.map Cuboid.loc) "x")
    (symBadnessAxis (args.map Cuboid.loc) "y") = 0
  rw [h0]
  exact min_eq_right hx

/-- C5 (counterexample): for the three colinear objects at x = 0, 1, 3 (all
with equal y and z), the point-symmetry badness is exactly `0`, not strictly
positive as claimed: the y-axis mirror fixes every point when all
y-coordinates coincide, and the badness is the minimum over the two axes. -/
theorem c5_counterexample_unequal_spacing_badness_zero :
    symmetryBadness [boxAt 0 0 0 1 1 1, boxAt 1 0 0 1 1 1, boxAt 3 0 0 1 1 1] false = 0 ∧
    ¬ (0 < symmetryBadness [boxAt 0 0 0 1 1 1, boxAt 1 0 0 1 1 1,
          boxAt 3 0 0 1 1 1] false) := by
  have h := symmetryBadness_eq_zero_of_flat_y
    [boxAt 0 0 0 1 1 1, boxAt 1 0 0 1 1 1, boxAt 3 0 0 1 1 1] (by
      intro a ha
      simp only [List.mem_cons, List.not_mem_nil, or_false] at ha
      rcases ha with rfl | rfl | rfl <;> rfl)
  exact ⟨h, by rw [h]; exact lt_irrefl 0⟩

/-- C5 (amended): both colinear configurations — centers at x = 0, 1, 2 and at
x = 0, 1, 3 with equal y and z — have point-symmetry badness exactly `0`
(in particular at most `1`): whenever all y-coordinates coincide the y-axis
mirror is the identity, and the badness is the minimum over the x and y mirror
axes of the mean normalized nearest-neighbor distance. -/
theorem c5_amended_colinear_configs_badness_zero :
    symmetryBadness [boxAt 0 0 0 1 1 1, boxAt 1 0 0 1 1 1, boxAt 2 0 0 1 1 1] false = 0 ∧
    symmetryBadness [boxAt 0 0 0 1 1 1, boxAt 1 0 0 1 1 1, boxAt 3 0 0 1 1 1] false = 0 ∧
    symmetryBadness [boxAt 0 0 0 1 1 1, boxAt 1 0 0 1 1 1, boxAt 3 0 0 1 1 1] false ≤ 1 := by
  have h2 := symmetryBadness_eq_zero_of_flat_y
    [boxAt 0 0 0 1 1 1, boxAt 1 0 0 1 1 1, boxAt 2 0 0 1 1 1] (by
      intro a ha
      simp only [List.mem_cons, List.not_mem_nil, or_false] at ha
      rcases ha with rfl | rfl | rfl <;> rfl)
  have h3 := symmetryBadness_eq_zero_of_flat_y
    [boxAt 0 0 0 1 1 1, boxAt 1 0 0 1 1 1, boxAt 3 0 0 1 1 1] (by
      intro a ha
      simp only [List.mem_cons, List.not_mem_nil, or_false] at ha
      rcases ha with rfl | rfl | rfl <;> rfl)
  exact ⟨h2, h3, by rw [h3]; norm_num⟩

theorem set_get_optimizable_attr (c : Cuboid) :
    c.set_optimizable_attr c.get_optimizable_attr = c := rfl

theorem recoverChunks_flatten (objs : List Cuboid) :
    recoverChunks objs 6 ((objs.map Cuboid.get_optimizable_attr).flatten) = objs := by
  induction objs with
  | nil => rfl
  | cons o t ih =>
    simp only [List.map_cons, List.flatten_cons, recoverChunks]
    have hlen : (6 : ℕ) = (Cuboid.get_optimizable_attr o).length := rfl
    have htake : (Cuboid.get_optimizable_attr o ++
        (t.map Cuboid.get_optimizable_attr).flatten).take 6 =
        Cuboid.get_optimizable_attr o := by
      rw [hlen, List.take_left]
    have hdrop : (Cuboid.get_optimizable_attr o ++
        (t.map Cuboid.get_optimizable_attr).flatten).drop 6 =
        (t.map Cuboid.get_optimizable_attr).flatten := by
      rw [hlen, List.drop_left]
    rw [htake, hdrop, ih, set_get_optimizable_attr]

/-- C9: on a non-empty registry (every object's modelled optimizable vector
has the fixed width 6, so the uniform-width hypothesis of the claim holds by
construction), unflattening the vector produced by flattening restores the
exact object states: `unflatten` slices the concatenated vector into
equal-width chunks in registry order and writes each chunk back. -/
theorem c9_flatten_unflatten_roundtrip {C : Type} (p : Problem C)
    (hne : p.optimizable_objects ≠ []) :
    p.recoverParams p.flattenParams = p.optimizable_objects := by
  obtain ⟨o, t, hobj⟩ := List.exists_cons_of_ne_nil hne
  unfold Problem.recoverParams Problem.flattenParams
  rw [hobj]
  exact recoverChunks_flatten (o :: t)

/-- C9 (witness): the roundtrip evaluated on the concrete one-object problem. -/
theorem c9_roundtrip_witness :
    oneObjectProblem.recoverParams oneObjectProblem.flattenParams =
      oneObjectProblem.optimizable_objects :=
  c9_flatten_unflatten_roundtrip oneObjectProblem (by simp [oneObjectProblem])

theorem abs_div_guard_le_one (x s : ℝ) (hxs : |x| ≤ s) : |x / (1e-8 + s)| ≤ 1 := by
  have hs : 0 ≤ s := le_trans (abs_nonneg x) hxs
  have he : (0 : ℝ) < 1e-8 := by norm_num
  have hd : (0 : ℝ) < 1e-8 + s := by linarith
  rw [abs_div, abs_of_pos hd, div_le_one hd]
  linarith

theorem abs_fst_le_sqrt_sq_add (a b : ℝ) : |a| ≤ Real.sqrt (a ^ 2 + b ^ 2) := by
  rw [← Real.sqrt_sq_eq_abs]
  exact Real.sqrt_le_sqrt (by nlinarith [sq_nonneg b])

theorem abs_snd_le_sqrt_sq_add (a b : ℝ) : |b| ≤ Real.sqrt (a ^ 2 + b ^ 2) := by
  rw [← Real.sqrt_sq_eq_abs]
  exact Real.sqrt_le_sqrt (by nlinarith [sq_nonneg a])

/-- C10: constructing a `Direction` constraint with `"up"` or `"down"` passes
validation (both are accepted enum members), but `badness()` raises
`NotImplementedError` for them; each of `"left"`, `"right"`, `"front"`,
`"back"` yields a value in `[0, 1]`, computed from the displacement vector
normalized with a `1e-8` epsilon guard. -/
theorem c10_direction_up_down_validated_but_badness_raises :
    (∀ o1 o2 : Cuboid, directionInit [o1, o2] "up" = Except.ok () ∧
      directionInit [o1, o2] "down" = Except.ok ()) ∧
    (∀ o1 o2 : Cuboid,
      directionBadness "up" o1 o2 = Except.error PyErr.notImplementedError ∧
      directionBadness "down" o1 o2 = Except.error PyErr.notImplementedError) ∧
    (∀ o1 o2 : Cuboid, ∃ v,
      directionBadness "left" o1 o2 = Except.ok v ∧ 0 ≤ v ∧ v ≤ 1) ∧
    (∀ o1 o2 : Cuboid, ∃ v,
      directionBadness "right" o1 o2 = Except.ok v ∧ 0 ≤ v ∧ v ≤ 1) ∧
    (∀ o1 o2 : Cuboid, ∃ v,
      directionBadness "front" o1 o2 = Except.ok v ∧ 0 ≤ v ∧ v ≤ 1) ∧
    (∀ o1 o2 : Cuboid, ∃ v,
      directionBadness "back" o1 o2 = Except.ok v ∧ 0 ≤ v ∧ v ≤ 1) := by
  refine ⟨fun o1 o2 => ⟨rfl, rfl⟩, fun o1 o2 => ⟨rfl, rfl⟩, ?_, ?_, ?_, ?_⟩ <;>
    intro o1 o2 <;>
    [skip; skip; skip; skip] <;>
    refine ⟨_, rfl, ?_, ?_⟩ <;>
    [have hb := abs_le.mp (abs_div_guard_le_one _ _
        (abs_fst_le_sqrt_sq_add (o2.loc.x - o1.loc.x) (o2.loc.y - o1.loc.y)));
     have hb := abs_le.mp (abs_div_guard_le_one _ _
        (abs_fst_le_sqrt_sq_add (o2.loc.x - o1.loc.x) (o2.loc.y - o1.loc.y)));
     have hb := abs_le.mp (abs_div_guard_le_one _ _
        (abs_fst_le_sqrt_sq_add (o2.loc.x - o1.loc.x) (o2.loc.y - o1.loc.y)));
     have hb := abs_le.mp (abs_div_guard_le_one _ _
        (abs_fst_le_sqrt_sq_add (o2.loc.x - o1.loc.x) (o2.loc.y - o1.loc.y)));
     have hb := abs_le.mp (abs_div_guard_le_one _ _
        (abs_snd_le_sqrt_sq_add (o2.loc.x - o1.loc.x) (o2.loc.y - o1.loc.y)));
     have hb := abs_le.mp (abs_div_guard_le_one _ _
        (abs_snd_le_sqrt_sq_add (o2.loc.x - o1.loc.x) (o2.loc.y - o1.loc.y)));
     have hb := abs_le.mp (abs_div_guard_le_one _ _
        (abs_snd_le_sqrt_sq_add (o2.loc.x - o1.loc.x) (o2.loc.y - o1.loc.y)));
     have hb := abs_le.mp (abs_div_guard_le_one _ _
        (abs_snd_le_sqrt_sq_add (o2.loc.x - o1.loc.x) (o2.loc.y - o1.loc.y)))] <;>
    · obtain ⟨hb1, hb2⟩ := hb
      linarith

theorem eDist2_nonneg (p q : ℝ × ℝ) : 0 ≤ eDist2 p q := Real.sqrt_nonneg _

/-- C8: two axis-aligned scale-2 cubes centered at (0,0,0) and (2,2,2) have
proximity badness exactly 0 (their planar projections touch at the corner
(1,1)); with the second cube rotated 45 degrees about its vertical axis at the
same center the proximity badness is `sqrt 2 - 1`.  Both values are the planar
boundary distance clipped by `min(1, ·)`. -/
theorem c8_proximity_touching_and_rotated :
    proximityBadness (boxAt 0 0 0 2 2 2) (boxAt 2 2 2 2 2 2) = 0 ∧
    proximityBadness (boxAt 0 0 0 2 2 2) ⟨⟨2, 2, 2⟩, ⟨0, 0, 45⟩, ⟨2, 2, 2⟩, ""⟩ =
      Real.sqrt 2 - 1 := by
  constructor
  · -- axis-aligned case: the two projections share the point (1,1)
    have hmem0 : (0 : ℝ) ∈ {d | ∃ p ∈ RotatedRect.covered ⟨0, 0, 2, 2, 0⟩,
        ∃ q ∈ RotatedRect.covered ⟨2, 2, 2, 2, 0⟩, d = eDist2 p q} := by
      refine ⟨((1 : ℝ), (1 : ℝ)), ?_, ((1 : ℝ), (1 : ℝ)), ?_, ?_⟩
      · exact ⟨1, 1, by norm_num, by norm_num,
          by norm_num [Real.cos_zero, Real.sin_zero],
          by norm_num [Real.cos_zero, Real.sin_zero]⟩
      · exact ⟨-1, -1, by norm_num, by norm_num,
          by norm_num [Real.cos_zero, Real.sin_zero],
          by norm_num [Real.cos_zero, Real.sin_zero]⟩
      · norm_num [eDist2, Real.sqrt_zero]
    have hlb : ∀ d ∈ {d | ∃ p ∈ RotatedRect.covered ⟨0, 0, 2, 2, 0⟩,
        ∃ q ∈ RotatedRect.covered ⟨2, 2, 2, 2, 0⟩, d = eDist2 p q}, 0 ≤ d := by
      rintro d ⟨p, _, q, _, rfl⟩
      exact eDist2_nonneg p q
    have h1 : RotatedRect.dist2d ⟨0, 0, 2, 2, 0⟩ ⟨2, 2, 2, 2, 0⟩ = 0 := by
      unfold RotatedRect.dist2d
      exact le_antisymm (csInf_le ⟨0, fun d hd => hlb d hd⟩ hmem0)
        (le_csInf ⟨0, hmem0⟩ hlb)
    show min 1 (RotatedRect.dist2d ⟨0, 0, 2, 2, 0⟩ ⟨2, 2, 2, 2, 0⟩) = 0
    rw [h1]
    exact min_eq_right (by norm_num)
  · -- rotated case: boundary distance sqrt 2 - 1
    set s2 := Real.sqrt 2 with hs2def
    have hs2 : s2 ^ 2 = 2 := Real.sq_sqrt (by norm_num)
    have hs2nn : 0 ≤ s2 := Real.sqrt_nonneg 2
    have hs2ge : 1 ≤ s2 := by nlinarith
    have hs2le : s2 ≤ 2 := by nlinarith
    have hcos : Real.cos ((45 : ℝ) * Real.pi / 180) = s2 / 2 := by
      rw [show (45 : ℝ) * Real.pi / 180 = Real.pi / 4 by ring, Real.cos_pi_div_four]
    have hsin : Real.sin ((45 : ℝ) * Real.pi / 180) = s2 / 2 := by
      rw [show (45 : ℝ) * Real.pi / 180 = Real.pi / 4 by ring, Real.sin_pi_div_four]
    have hmem : (s2 - 1) ∈ {d | ∃ p ∈ RotatedRect.covered ⟨0, 0, 2, 2, 0⟩,
        ∃ q ∈ RotatedRect.covered ⟨2, 2, 2, 2, 45⟩, d = eDist2 p q} := by
      refine ⟨((1 : ℝ), (1 : ℝ)), ?_, ((2 - s2 / 2 : ℝ), (2 - s2 / 2 : ℝ)), ?_, ?_⟩
      · exact ⟨1, 1, by norm_num, by norm_num,
          by norm_num [Real.cos_zero, Real.sin_zero],
          by norm_num [Real.cos_zero, Real.sin_zero]⟩
      · refine ⟨-1, 0, by norm_num, by norm_num, ?_, ?_⟩
        · show (2 - s2 / 2 : ℝ) = 2 + (-1) * Real.cos ((45 : ℝ) * Real.pi / 180) -
            0 * Real.sin ((45 : ℝ) * Real.pi / 180)
          rw [hcos, hsin]
          ring
        · show (2 - s2 / 2 : ℝ) = 2 + (-1) * Real.sin ((45 : ℝ) * Real.pi / 180) +
            0 * Real.cos ((45 : ℝ) * Real.pi / 180)
          rw [hcos, hsin]
          ring
      · show s2 - 1 = eDist2 ((1 : ℝ), (1 : ℝ)) ((2 - s2 / 2 : ℝ), (2 - s2 / 2 : ℝ))
        have hval : ((1 : ℝ) - (2 - s2 / 2)) ^ 2 + ((1 : ℝ) - (2 - s2 / 2)) ^ 2 =
            (s2 - 1) ^ 2 := by
          linear_combination (-1 / 2 : ℝ) * hs2
        have : eDist2 ((1 : ℝ), (1 : ℝ)) ((2 - s2 / 2 : ℝ), (2 - s2 / 2 : ℝ)) =
            Real.sqrt (((1 : ℝ) - (2 - s2 / 2)) ^ 2 + ((1 : ℝ) - (2 - s2 / 2)) ^ 2) := rfl
        rw [this, hval, Real.sqrt_sq (by linarith)]
    have hlb : ∀ d ∈ {d | ∃ p ∈ RotatedRect.covered ⟨0, 0, 2, 2, 0⟩,
        ∃ q ∈ RotatedRect.covered ⟨2, 2, 2, 2, 45⟩, d = eDist2 p q}, s2 - 1 ≤ d := by
      rintro d ⟨p, hp, q, hq, rfl⟩
      obtain ⟨u, v, hu, hv, hp1, hp2⟩ := hp
      obtain ⟨a, b, ha, hb, hq1, hq2⟩ := hq
      rw [show ((⟨0, 0, 2, 2, 0⟩ : RotatedRect)).cx = (0 : ℝ) from rfl] at hp1
      norm_num [Real.cos_zero, Real.sin_zero] at hp1 hp2
      rw [hcos, hsin] at hq1 hq2
      have hu2 := abs_le.mp hu
      have hv2 := abs_le.mp hv
      have ha2 := abs_le.mp ha
      have hb2 := abs_le.mp hb
      have haa : 0 ≤ (a + 1) * s2 := mul_nonneg (by linarith [ha2.1]) hs2nn
      have hsum : 2 - s2 ≤ (q.1 - p.1) + (q.2 - p.2) := by
        rw [hp1, hp2, hq1, hq2]
        linarith [haa, hu2.1, hu2.2, hv2.1, hv2.2]
      have h2s : (0 : ℝ) ≤ 2 - s2 := by linarith
      have hsq : (2 - s2) ^ 2 ≤ ((q.1 - p.1) + (q.2 - p.2)) ^ 2 :=
        pow_le_pow_left₀ h2s hsum 2
      have hcs : ((q.1 - p.1) + (q.2 - p.2)) ^ 2 ≤
          2 * ((p.1 - q.1) ^ 2 + (p.2 - q.2) ^ 2) := by
        nlinarith [sq_nonneg ((q.1 - p.1) - (q.2 - p.2))]
      have e1 : (s2 - 1) ^ 2 = 3 - 2 * s2 := by linear_combination hs2
      have e2 : (2 - s2) ^ 2 = 6 - 4 * s2 := by linear_combination hs2
      rw [e2] at hsq
      have key : (s2 - 1) ^ 2 ≤ (p.1 - q.1) ^ 2 + (p.2 - q.2) ^ 2 := by
        rw [e1]
        linarith [hsq, hcs]
      have : eDist2 p q = Real.sqrt ((p.1 - q.1) ^ 2 + (p.2 - q.2) ^ 2) := rfl
      rw [this]
      calc s2 - 1 = Real.sqrt ((s2 - 1) ^ 2) := (Real.sqrt_sq (by linarith)).symm
        _ ≤ Real.sqrt ((p.1 - q.1) ^ 2 + (p.2 - q.2) ^ 2) := Real.sqrt_le_sqrt key
    have h2 : RotatedRect.dist2d ⟨0, 0, 2, 2, 0⟩ ⟨2, 2, 2, 2, 45⟩ = s2 - 1 := by
      unfold RotatedRect.dist2d
      refine le_antisymm (csInf_le ⟨0, ?_⟩ hmem) (le_csInf ⟨s2 - 1, hmem⟩ hlb)
      rintro d ⟨p, _, q, _, rfl⟩
      exact eDist2_nonneg p q
    show min 1 (RotatedRect.dist2d ⟨0, 0, 2, 2, 0⟩ ⟨2, 2, 2, 2, 45⟩) = s2 - 1
    rw [h2]
    exact min_eq_right (by linarith)

/-- C4 (counterexample): for two objects centered at x = 0 and x = 2 with the
x/center selector, the population standard deviation of the selected scalars
is `1`, but the group-alignment badness is `scaled_sigmoid(1) ≠ 1` — the code
passes the standard deviation through `scaled_sigmoid`, so the badness does
not equal the standard deviation. -/
theorem c4_counterexample_badness_is_not_the_std :
    npStd (alignValues [boxAt 0 0 0 1 1 1, boxAt 2 0 0 1 1 1] "x" "center") = 1 ∧
    alignmentBadness [boxAt 0 0 0 1 1 1, boxAt 2 0 0 1 1 1] "x" "center" ≠
      npStd (alignValues [boxAt 0 0 0 1 1 1, boxAt 2 0 0 1 1 1] "x" "center") := by
  have hv : alignValues [boxAt 0 0 0 1 1 1, boxAt 2 0 0 1 1 1] "x" "center" =
      [(0 : ℝ), 2] := rfl
  have hstd : npStd (alignValues [boxAt 0 0 0 1 1 1, boxAt 2 0 0 1 1 1] "x" "center") = 1 := by
    rw [hv]
    unfold npStd listMean
    norm_num
  refine ⟨hstd, ?_⟩
  rw [hstd]
  unfold alignmentBadness
  rw [hstd]
  unfold scaled_sigmoid
  have he : 0 < Real.exp (-1 : ℝ) := Real.exp_pos _
  have hne : (1 : ℝ) + Real.exp (-1 : ℝ) > 1 := by linarith
  have hlt : 1 / (1 + Real.exp (-1 : ℝ)) < 1 := by
    rw [div_lt_one (by linarith)]
    linarith
  intro h
  nlinarith

/-- C4 (amended): for every argument list of two or more objects and every
valid axis/location selector, the group-alignment badness equals
`scaled_sigmoid` applied to the population standard deviation of the selected
scalars, and it equals 0 exactly when all the selected scalars are equal. -/
theorem c4_amended_badness_is_sigmoid_of_std
    (args : List Cuboid) (dimension location : String)
    (hlen : 2 ≤ args.length)
    (hdim : dimension ∈ (["x", "y", "z"] : List String))
    (hloc : location ∈ (["bounding_min", "bounding_max", "center"] : List String)) :
    alignmentBadness args dimension location =
      scaled_sigmoid (popStdSpec (alignValues args dimension location)) ∧
    (alignmentBadness args dimension location = 0 ↔
      ∀ v ∈ alignValues args dimension location,
        ∀ w ∈ alignValues args dimension location, v = w) := by
  constructor
  · unfold alignmentBadness
    rw [npStd_eq_popStdSpec]
  · unfold alignmentBadness
    rw [scaled_sigmoid_eq_zero_iff]
    exact npStd_eq_zero_iff _

/-- C4 (witness): the amended statement evaluated at two concrete objects
centered at x = 0 and x = 2 with the x/center selector. -/
theorem c4_amended_witness :
    alignmentBadness [boxAt 0 0 0 1 1 1, boxAt 2 0 0 1 1 1] "x" "center" =
      scaled_sigmoid (popStdSpec
        (alignValues [boxAt 0 0 0 1 1 1, boxAt 2 0 0 1 1 1] "x" "center")) ∧
    (alignmentBadness [boxAt 0 0 0 1 1 1, boxAt 2 0 0 1 1 1] "x" "center" = 0 ↔
      ∀ v ∈ alignValues [boxAt 0 0 0 1 1 1, boxAt 2 0 0 1 1 1] "x" "center",
        ∀ w ∈ alignValues [boxAt 0 0 0 1 1 1, boxAt 2 0 0 1 1 1] "x" "center", v = w) :=
  c4_amended_badness_is_sigmoid_of_std _ "x" "center" (by simp) (by simp) (by simp)

/-- C1: the shared base-class arity check rejects the flexible-arity
group-alignment constraint (tuple arity `(2, -1)` never equals an argument
count) and the pairwise non-overlap constraint (arity `-1` never equals a
length), and constructing the point-symmetry constraint raises `TypeError`
(its `arity` property returns `None`, which the base class then calls); so
construction of these three kinds raises even when the argument list has the
arity the claim declares.  A well-formed exact-arity kind (`Proximity`)
constructs exactly when the length matches. -/
theorem c1_flexible_arity_construction_always_raises :
    symmetryInit (List.replicate 3 (default : Cuboid)) false = Except.error PyErr.typeError ∧
    alignmentInit (List.replicate 3 (default : Cuboid)) "x" "center" =
      Except.error PyErr.valueError ∧
    noOverlapInit (List.replicate 2 (default : Cuboid)) = Except.error PyErr.valueError ∧
    proximityInit (List.replicate 2 (default : Cuboid)) = Except.ok () ∧
    proximityInit (List.replicate 3 (default : Cuboid)) = Except.error PyErr.valueError := by
  refine ⟨rfl, ?_, ?_, ?_, ?_⟩ <;>
    simp [alignmentInit, noOverlapInit, proximityInit, baseInit, pyLenEq]

/-- C2: the perpendicular-rotation badness `(cos Δ + 1) / 2` is nonnegative,
equals `1/2` at a 90-degree z-rotation difference, and equals its minimum
value `0` at a 180-degree difference — so its minimum is not attained at 90
degrees, contradicting the claim (the code disagrees with its own class
docstring here).  The parallel badness `1 - cos Δ` is `0` at a 0-degree
difference. -/
theorem c2_perpendicularity_minimum_at_180_not_90 :
    (∀ o0 o1 : Cuboid, 0 ≤ perpendicularityBadness o0 o1) ∧
    parallelismBadness (zRotCuboid 0) (zRotCuboid 0) = 0 ∧
    perpendicularityBadness (zRotCuboid 0) (zRotCuboid 90) = 1 / 2 ∧
    perpendicularityBadness (zRotCuboid 0) (zRotCuboid 180) = 0 ∧
    perpendicularityBadness (zRotCuboid 0) (zRotCuboid 180) <
      perpendicularityBadness (zRotCuboid 0) (zRotCuboid 90) := by
  have hc90 : Real.cos ((90 : ℝ) / 180 * Real.pi) = 0 := by
    rw [show (90 : ℝ) / 180 * Real.pi = Real.pi / 2 by ring, Real.cos_pi_div_two]
  have hc180 : Real.cos ((180 : ℝ) / 180 * Real.pi) = -1 := by
    rw [show (180 : ℝ) / 180 * Real.pi = Real.pi by ring, Real.cos_pi]
  refine ⟨fun o0 o1 => ?_, ?_, ?_, ?_, ?_⟩
  · have := Real.neg_one_le_cos (|o0.rot.z / 180 * Real.pi - o1.rot.z / 180 * Real.pi|)
    simp only [perpendicularityBadness]
    linarith
  · simp [parallelismBadness, zRotCuboid]
  · simp [perpendicularityBadness, zRotCuboid, hc90]
  · simp [perpendicularityBadness, zRotCuboid, hc180]
  · simp [perpendicularityBadness, zRotCuboid, hc90, hc180]

/-- C3 (counterexample): when the external minimizer returns a vector whose
z-rotation entry is `270`, `solve` writes it back verbatim, so after `solve`
returns the object's z-rotation is `270`, which does not lie in `(-180, 180]`
— no canonicalization happens inside `solve`. -/
theorem c3_counterexample_post_solve_rotation_out_of_range :
    ((oneObjectProblem.solveFinalObjects [0, 0, 0, 0, 0, 270]).headD default).rot.z = 270 ∧
    ¬ (-180 < ((oneObjectProblem.solveFinalObjects [0, 0, 0, 0, 0, 270]).headD
          default).rot.z ∧
        ((oneObjectProblem.solveFinalObjects [0, 0, 0, 0, 0, 270]).headD
          default).rot.z ≤ 180) := by
  have h : ((oneObjectProblem.solveFinalObjects [0, 0, 0, 0, 0, 270]).headD
      default).rot.z = 270 := rfl
  refine ⟨h, ?_⟩
  rw [h]
  norm_num

/-- C3 (amended): rotation components get `(None, None)` bounds during
optimization; `solve` writes the minimizer's final vector back verbatim and
returns without canonicalizing, so rotation components can leave
`(-180, 180]`; the canonicalization into `(-180, 180]` is applied to the
z-rotation by the dataset-generation script after `solve` returns, and that
recast does land in `(-180, 180]`. -/
theorem c3_amended_canonicalization_outside_solve :
    oneObjectProblem.solveBounds =
      [(some (-10), some 10), (some (-10), some 10), (some 0, some 5),
       (none, none), (none, none), (none, none)] ∧
    (∀ (c : Cuboid) (flat : List ℝ),
      (c.set_optimizable_attr flat).rot.z = flat.getD 5 0) ∧
    ((oneObjectProblem.solveFinalObjects [0, 0, 0, 0, 0, 270]).headD default).rot.z = 270 ∧
    (∀ r : ℝ, -180 < recastZ r ∧ recastZ r ≤ 180) ∧
    recastZ 270 = -90 := by
  refine ⟨rfl, fun c flat => rfl, rfl, fun r => ?_, ?_⟩
  · have hfl : ((⌊r / 360⌋ : ℤ) : ℝ) ≤ r / 360 := Int.floor_le (r / 360)
    have hfl2 : r / 360 < (⌊r / 360⌋ : ℤ) + 1 := Int.lt_floor_add_one (r / 360)
    simp only [recastZ]
    split_ifs with h
    · constructor <;> linarith
    · constructor <;> linarith
  · have h0 : ⌊(270 : ℝ) / 360⌋ = 0 := by
      rw [Int.floor_eq_zero_iff]
      constructor <;> norm_num
    simp only [recastZ, h0]
    norm_num

/-- C6 (counterexample): shifting the concentric inner `(1,1,1)` box by half
its width (`0.5`) along the x axis leaves it entirely inside the outer
`(2,2,2)` box's projection, so the cover badness is `0`, not the claimed
`0.5`. -/
theorem c6_counterexample_half_width_shift_still_covered :
    coverBadness outerBox (boxAt 0.5 0 0 1 1 1) = 0 ∧
    coverBadness outerBox (boxAt 0.5 0 0 1 1 1) ≠ 1 / 2 := by
  constructor <;>
    norm_num [coverBadness, interAreaAA, Cuboid.to_2d_rect, RotatedRect.rectArea,
      boxAt, outerBox, min_def, max_def]

/-- C6 (amended): the concentric inner box has cover badness `0`, and shifting
the inner box by its full width (one unit, i.e. half the outer box's width)
along one axis gives cover badness `0.5`. -/
theorem c6_amended_full_width_shift_gives_half :
    coverBadness outerBox (boxAt 0 0 0 1 1 1) = 0 ∧
    coverBadness outerBox (boxAt 1 0 0 1 1 1) = 1 / 2 := by
  constructor <;>
    norm_num [coverBadness, interAreaAA, Cuboid.to_2d_rect, RotatedRect.rectArea,
      boxAt, outerBox, min_def, max_def]

/-- C7 (evaluation at the failing input): `add_optimizable_object` of the
current `Problem` is an unconditional list append with no identifier
parameter, so registering the same object twice succeeds and stores it twice
— nothing is rejected; adds only extend the registry and constraint lists. -/
theorem c7_duplicate_registration_not_rejected :
    (∀ (p : Problem Unit) (o : Cuboid),
      (p.add_optimizable_object o).optimizable_objects = p.optimizable_objects ++ [o]) ∧
    (((⟨[], [], [], 0, 0, 0, 0, 0, 0⟩ : Problem Unit).add_optimizable_object
        default).add_optimizable_object default).optimizable_objects =
      [default, default] ∧
    (∀ (p : Problem Unit) (c : Unit) (w : ℝ),
      (p.add_constraint_proposition c w).constraint_propositions =
        p.constraint_propositions ++ [c] ∧
      (p.add_constraint_proposition c w).constraint_weights =
        p.constraint_weights ++ [w]) := by
  exact ⟨fun p o => rfl, rfl, fun p c w => ⟨rfl, rfl⟩⟩

end GCS
